import Mathlib

set_option linter.unusedVariables false

/-!
Shallow embedding of `src/clients/rust/wcferry/src/wechat.rs` (the WeChatFerry
Rust client).  The nng socket and the prost codec are abstracted by explicit
environment records that say which step of a round trip succeeds and, when the
reply decodes, which decoded `Response` arrives.  Rust errors are
`Box<dyn Error>` built from string literals; they are modelled by the literal
itself, so `Except String α` stands for `Result<α, Box<dyn Error>>`.
Panics coming from `.unwrap()` are modelled by the `PanicOr` outcome type.
-/

namespace Wcferry

/-- The operation selector enum `wcf::Functions` (generated protobuf code,
constructors restricted to the ones `wechat.rs` uses). -/
inductive Functions where
  | funcIsLogin
  | funcGetSelfWxid
  | funcGetUserInfo
  | funcGetContacts
  | funcGetDbNames
  | funcGetDbTables
  | funcExecDbQuery
  | funcSendTxt
  | funcSendImg
  | funcSendFile
  | funcSendXml
  | funcSendEmotion
  | funcEnableRecvTxt
  | funcDisableRecvTxt
  | funcGetMsgTypes
  | funcAcceptFriend
  | funcAddRoomMembers
  | funcDelRoomMembers
  | funcDecryptImage
  | funcRecvTransfer
  | funcRefreshPyq
  deriving DecidableEq, Repr

/-- `wcf::TextMsg`. -/
structure TextMsg where
  msg : String
  receiver : String
  aters : String
  deriving DecidableEq, Repr

/-- `wcf::PathMsg`. -/
structure PathMsg where
  path : String
  receiver : String
  deriving DecidableEq, Repr

/-- `wcf::XmlMsg`. -/
structure XmlMsg where
  content : String
  path : String
  receiver : String
  type : Int
  deriving DecidableEq, Repr

/-- `wcf::DbQuery`. -/
structure DbQuery where
  db : String
  sql : String
  deriving DecidableEq, Repr

/-- `wcf::Verification`. -/
structure Verification where
  v3 : String
  v4 : String
  scene : Int
  deriving DecidableEq, Repr

/-- `wcf::AddMembers`. -/
structure AddMembers where
  roomid : String
  wxids : String
  deriving DecidableEq, Repr

/-- `wcf::DecPath`. -/
structure DecPath where
  src : String
  dst : String
  deriving DecidableEq, Repr

/-- `wcf::Transfer`. -/
structure Transfer where
  wxid : String
  tfid : String
  taid : String
  deriving DecidableEq, Repr

/-- The request oneof `wcf::request::Msg` (variants used by `wechat.rs`). -/
inductive RequestMsg where
  | str (s : String)
  | txt (t : TextMsg)
  | file (f : PathMsg)
  | query (q : DbQuery)
  | v (vr : Verification)
  | m (am : AddMembers)
  | flag (b : Bool)
  | xml (x : XmlMsg)
  | dec (d : DecPath)
  | tf (t : Transfer)
  | ui64 (n : Nat)
  deriving DecidableEq, Repr

/-- `wcf::Request`: selector plus optional request payload. -/
structure Request where
  func : Functions
  msg : Option RequestMsg
  deriving DecidableEq, Repr

/-- Modelled from the spec: the user-info record of the response envelope
(the generated protobuf type behind `wcf::response::Msg::Ui`); `wechat.rs`
reads the four fields `wxid`, `name`, `mobile`, `home` from it. -/
structure WcfUserInfo where
  wxid : String
  name : String
  mobile : String
  home : String
  deriving DecidableEq, Repr

/-- Modelled from the spec: one entry of the contact list response variant;
`wechat.rs` treats it opaquely. -/
structure RpcContact where
  wxid : String
  name : String
  deriving DecidableEq, Repr

/-- Modelled from the spec: the contact-list record behind
`wcf::response::Msg::Contacts`. -/
structure RpcContacts where
  contacts : List RpcContact
  deriving DecidableEq, Repr

/-- Modelled from the spec: the database-name list behind
`wcf::response::Msg::Dbs`; `wechat.rs` reads its `names` field. -/
structure DbNames where
  names : List String
  deriving DecidableEq, Repr

/-- Modelled from the spec: one entry of the table-list response variant;
`wechat.rs` treats it opaquely. -/
structure DbTable where
  name : String
  sql : String
  deriving DecidableEq, Repr

/-- Modelled from the spec: the table-list record behind
`wcf::response::Msg::Tables`; `wechat.rs` reads its `tables` field. -/
structure DbTables where
  tables : List DbTable
  deriving DecidableEq, Repr

/-- Modelled from the spec: one row of the row-list response variant;
`wechat.rs` treats it opaquely. -/
structure DbRow where
  fields : List String
  deriving DecidableEq, Repr

/-- Modelled from the spec: the row-list record behind
`wcf::response::Msg::Rows`; `wechat.rs` reads its `rows` field. -/
structure DbRows where
  rows : List DbRow
  deriving DecidableEq, Repr

/-- Modelled from the spec: the type-name mapping behind
`wcf::response::Msg::Types`; the protobuf map from i32 to string is modelled
as an association list. -/
structure MsgTypes where
  types : List (Int × String)
  deriving DecidableEq, Repr

/-- Modelled from the spec: the pushed-message record behind
`wcf::response::Msg::Wxmsg`; `wechat.rs` treats it opaquely. -/
structure WxMsg where
  id : Nat
  content : String
  deriving DecidableEq, Repr

/-- The response oneof `wcf::response::Msg`, listed in the spec as status
code, string, user-info record, contact list, database-name list, table
list, row list, type-name mapping, pushed-message record. -/
inductive ResponseMsg where
  | status (s : Int)
  | str (s : String)
  | ui (u : WcfUserInfo)
  | contacts (c : RpcContacts)
  | dbs (d : DbNames)
  | tables (t : DbTables)
  | rows (r : DbRows)
  | types (t : MsgTypes)
  | wxmsg (w : WxMsg)
  deriving DecidableEq, Repr

/-- `wcf::Response`: the inbound envelope, an optional response payload
("none" signals success-with-no-data or a remote-side failure). -/
structure Response where
  msg : Option ResponseMsg
  deriving DecidableEq, Repr

/-- Outcome of one `socket.recv()` followed by `wcf::Response::decode`:
`err` is a receive failure (timeout or closed channel), `ok none` is
received bytes that fail to decode, `ok (some r)` is a decoded envelope. -/
inductive RecvResult where
  | err
  | ok (decoded : Option Response)
  deriving DecidableEq, Repr

/-- Environment of one `send_cmd` round trip on the primary socket: whether
`req.encode` succeeds, whether `socket.send` succeeds, and what the
receive-and-decode leg yields. -/
structure Env where
  encodeOk : Bool
  sendOk : Bool
  recvResult : RecvResult
  deriving DecidableEq, Repr

/-- The distinct causes that `send_cmd` logs on its four failure paths
(`序列化失败`, `Socket发送失败`, `Socket接收失败`, `反序列化失败`). -/
inductive LogEvent where
  | serializeFail
  | sendFail
  | recvFail
  | decodeFail
  deriving DecidableEq, Repr

/-- An opaque live nng socket handle. -/
inductive Socket where
  | mk
  deriving DecidableEq, Repr

/-- The `WeChat` session struct of `wechat.rs` (the socket field is the
opaque handle; its behaviour is the `Env` argument of each operation). -/
structure WeChat where
  url : String
  wcf_path : List String
  debug : Bool
  socket : Socket
  listening : Bool
  enable_accept_firend : Bool
  deriving DecidableEq, Repr

def DEFAULT_URL : String := "tcp://127.0.0.1:10086"

def LISTEN_URL : String := "tcp://127.0.0.1:10087"

/-- Environment of one `connect` call: whether socket creation, the two
timeout options, and the dial succeed. -/
structure ConnEnv where
  socketNewOk : Bool
  recvTimeoutOk : Bool
  sendTimeoutOk : Bool
  dialOk : Bool
  deriving DecidableEq, Repr

/-- `connect(url)`: create a Pair1 socket, set the 5000 ms receive and send
timeouts, dial; each step failing returns the corresponding error string. -/
def connect (c : ConnEnv) : Except String Socket :=
  if c.socketNewOk then
    if c.recvTimeoutOk then
      if c.sendTimeoutOk then
        if c.dialOk then .ok .mk
        else .error "连接服务失败"
      else .error "连接参数设置失败"
    else .error "连接参数设置失败"
  else .error "连接服务失败"

/-- `send_cmd(wechat, req)` together with the cause it logs on failure:
encode the request, send it, receive a reply, decode it; every failure path
returns the one error string `通信失败` after logging its distinct cause,
and success returns the decoded envelope's optional payload. -/
def send_cmdWithLog (env : Env) (req : Request) :
    Except String (Option ResponseMsg) × List LogEvent :=
  if env.encodeOk then
    if env.sendOk then
      match env.recvResult with
      | .err => (.error "通信失败", [.recvFail])
      | .ok none => (.error "通信失败", [.decodeFail])
      | .ok (some response) => (.ok response.msg, [])
    else (.error "通信失败", [.sendFail])
  else (.error "通信失败", [.serializeFail])

/-- The value `send_cmd` returns to its caller. -/
def send_cmd (env : Env) (req : Request) : Except String (Option ResponseMsg) :=
  (send_cmdWithLog env req).1

/-- The causes `send_cmd` logs. -/
def send_cmdLogs (env : Env) (req : Request) : List LogEvent :=
  (send_cmdWithLog env req).2

/-- Outcome of a Rust computation that can `panic!` (here: through
`.unwrap()` on an `Err`): either the panic message or the value. -/
inductive PanicOr (α : Type) where
  | panicked (msg : String)
  | value (a : α)
  deriving DecidableEq, Repr

/-- `WeChat::new(debug)`: joins the current directory with `lib/wcf.exe`,
ignores the result of `start`, then `connect(&DEFAULT_URL).unwrap()` — a
connect failure panics instead of returning an error value. -/
def WeChat.new (c : ConnEnv) (currentDir : String) (debug : Bool) :
    PanicOr WeChat :=
  match connect c with
  | .error e => .panicked e
  | .ok socket =>
      .value
        { url := DEFAULT_URL
          wcf_path := [currentDir, "lib", "wcf.exe"]
          debug := debug
          socket := socket
          listening := false
          enable_accept_firend := false }

/-- `is_login`: round trip with `FuncIsLogin` and no payload; a failed round
trip is re-reported as `登录状态检查失败`, an absent payload is `false`, a
status payload compares against 1, any other variant is `false`. -/
def is_login (env : Env) (wechat : WeChat) : Except String Bool :=
  match send_cmd env { func := .funcIsLogin, msg := none } with
  | .error _ => .error "登录状态检查失败"
  | .ok none => .ok false
  | .ok (some m) =>
      match m with
      | .status status => .ok (1 == status)
      | _ => .ok false

/-- `get_self_wx_id`: narrows to the string variant, defaulting to `None`. -/
def get_self_wx_id (env : Env) (wechat : WeChat) :
    Except String (Option String) :=
  match send_cmd env { func := .funcGetSelfWxid, msg := none } with
  | .error _ => .error "获取微信ID失败"
  | .ok none => .ok none
  | .ok (some m) =>
      match m with
      | .str wx_id => .ok (some wx_id)
      | _ => .ok none

/-- The client-side `UserInfo` struct of `wechat.rs`. -/
structure UserInfo where
  wxid : String
  name : String
  mobile : String
  home : String
  deriving DecidableEq, Repr

/-- `get_user_info`: narrows to the user-info variant, defaulting to
`None`. -/
def get_user_info (env : Env) (wechat : WeChat) :
    Except String (Option UserInfo) :=
  match send_cmd env { func := .funcGetUserInfo, msg := none } with
  | .error _ => .error "获取用户信息失败"
  | .ok none => .ok none
  | .ok (some m) =>
      match m with
      | .ui user_info =>
          .ok (some { wxid := user_info.wxid, name := user_info.name,
                      mobile := user_info.mobile, home := user_info.home })
      | _ => .ok none

/-- `get_contacts`: narrows to the contact-list variant, defaulting to
`None`. -/
def get_contacts (env : Env) (wechat : WeChat) :
    Except String (Option RpcContacts) :=
  match send_cmd env { func := .funcGetContacts, msg := none } with
  | .error _ => .error "获取微信联系人失败"
  | .ok none => .ok none
  | .ok (some m) =>
      match m with
      | .contacts contact => .ok (some contact)
      | _ => .ok none

/-- `get_db_names`: narrows to the database-name list, defaulting to the
empty vector. -/
def get_db_names (env : Env) (wechat : WeChat) :
    Except String (List String) :=
  match send_cmd env { func := .funcGetDbNames, msg := none } with
  | .error _ => .error "获取微信数据库失败"
  | .ok none => .ok []
  | .ok (some m) =>
      match m with
      | .dbs dbs => .ok dbs.names
      | _ => .ok []

/-- `get_db_tables`: narrows to the table list, defaulting to the empty
vector. -/
def get_db_tables (env : Env) (wechat : WeChat) (db : String) :
    Except String (List DbTable) :=
  match send_cmd env { func := .funcGetDbTables, msg := some (.str db) } with
  | .error _ => .error "获取数据库表失败"
  | .ok none => .ok []
  | .ok (some m) =>
      match m with
      | .tables tables => .ok tables.tables
      | _ => .ok []

/-- `exec_db_query`: narrows to the row list, defaulting to the empty
vector. -/
def exec_db_query (env : Env) (wechat : WeChat) (db sql : String) :
    Except String (List DbRow) :=
  match send_cmd env
      { func := .funcExecDbQuery, msg := some (.query { db := db, sql := sql }) } with
  | .error _ => .error "执行SQL失败"
  | .ok none => .ok []
  | .ok (some m) =>
      match m with
      | .rows rows => .ok rows.rows
      | _ => .ok []

/-- `send_text`: absent payload is `false`; any present payload variant is
`true` — the status narrowing is commented out in the source. -/
def send_text (env : Env) (wechat : WeChat) (msg receiver aters : String) :
    Except String Bool :=
  match send_cmd env
      { func := .funcSendTxt,
        msg := some (.txt { msg := msg, receiver := receiver, aters := aters }) } with
  | .error _ => .error "微信消息发送失败"
  | .ok none => .ok false
  | .ok (some _) => .ok true

/-- `send_image`: absent payload is `false`; any present payload variant is
`true` — the status narrowing is commented out in the source. -/
def send_image (env : Env) (wechat : WeChat) (path receiver : String) :
    Except String Bool :=
  match send_cmd env
      { func := .funcSendImg,
        msg := some (.file { path := path, receiver := receiver }) } with
  | .error _ => .error "图片发送失败"
  | .ok none => .ok false
  | .ok (some _) => .ok true

/-- `send_file`: narrows to the status variant, `true` exactly when the
status is 1. -/
def send_file (env : Env) (wechat : WeChat) (path receiver : String) :
    Except String Bool :=
  match send_cmd env
      { func := .funcSendFile,
        msg := some (.file { path := path, receiver := receiver }) } with
  | .error _ => .error "文件发送失败"
  | .ok none => .ok false
  | .ok (some m) =>
      match m with
      | .status status => .ok (1 == status)
      | _ => .ok false

/-- `send_xml`: narrows to the status variant, `true` exactly when the
status is 1. -/
def send_xml (env : Env) (wechat : WeChat)
    (xml path receiver : String) (xml_type : Int) : Except String Bool :=
  match send_cmd env
      { func := .funcSendXml,
        msg := some (.xml { content := xml, path := path,
                            receiver := receiver, type := xml_type }) } with
  | .error _ => .error "微信XML消息发送失败"
  | .ok none => .ok false
  | .ok (some m) =>
      match m with
      | .status status => .ok (1 == status)
      | _ => .ok false

/-- `send_emotion`: narrows to the status variant, `true` exactly when the
status is 1. -/
def send_emotion (env : Env) (wechat : WeChat) (path receiver : String) :
    Except String Bool :=
  match send_cmd env
      { func := .funcSendEmotion,
        msg := some (.file { path := path, receiver := receiver }) } with
  | .error _ => .error "微信表情发送失败"
  | .ok none => .ok false
  | .ok (some m) =>
      match m with
      | .status status => .ok (1 == status)
      | _ => .ok false

/-- `enable_listen`: an already-listening session fails at once; otherwise
one round trip with `FuncEnableRecvTxt` and flag `true`; a failed round trip
or an absent payload is an error; then `connect(LISTEN_URL).unwrap()` — a
dial failure panics — and only then is `listening` set.  Returns the new
secondary socket and the updated session. -/
def enable_listen (env : Env) (c : ConnEnv) (wechat : WeChat) :
    PanicOr (Except String Socket × WeChat) :=
  if wechat.listening then
    .value (.error "消息接收服务已开启", wechat)
  else
    match send_cmd env
        { func := .funcEnableRecvTxt, msg := some (.flag true) } with
    | .error _ => .value (.error "消息接收服务启动失败", wechat)
    | .ok none => .value (.error "消息接收服务启动失败", wechat)
    | .ok (some _) =>
        match connect c with
        | .error e => .panicked e
        | .ok client => .value (.ok client, { wechat with listening := true })

/-- `disable_listen`: a non-listening session succeeds as a no-op; otherwise
one round trip with `FuncDisableRecvTxt`; a failed round trip or an absent
payload is an error that leaves `listening` set; only a present payload
clears `listening`.  The secondary socket is not held by the session and is
never closed here. -/
def disable_listen (env : Env) (wechat : WeChat) :
    Except String Bool × WeChat :=
  if wechat.listening then
    match send_cmd env { func := .funcDisableRecvTxt, msg := none } with
    | .error _ => (.error "消息接收服务停止失败", wechat)
    | .ok none => (.error "消息接收服务停止失败", wechat)
    | .ok (some _) => (.ok true, { wechat with listening := false })
  else
    (.ok true, wechat)

/-- `recv_msg(client)`: one receive on the secondary socket; a receive
failure yields `Ok(None)`; bytes that fail to decode are the hard error
`微信消息接收失败`; a decoded envelope is surfaced only when its payload is
the `Wxmsg` variant, anything else yields `Ok(None)`. -/
def recv_msg (r : RecvResult) : Except String (Option WxMsg) :=
  match r with
  | .err => .ok none
  | .ok none => .error "微信消息接收失败"
  | .ok (some res) =>
      match res.msg with
      | some (.wxmsg msg) => .ok (some msg)
      | _ => .ok none

/-- `get_msg_types`: narrows to the type-name mapping, defaulting to the
empty map (the protobuf map is modelled as an association list). -/
def get_msg_types (env : Env) (wechat : WeChat) :
    Except String (List (Int × String)) :=
  match send_cmd env { func := .funcGetMsgTypes, msg := none } with
  | .error _ => .error "获取消息类型失败"
  | .ok none => .ok []
  | .ok (some m) =>
      match m with
      | .types msg_types => .ok msg_types.types
      | _ => .ok []

/-- `accept_new_friend`: narrows to the status variant, `true` exactly when
the status is 1. -/
def accept_new_friend (env : Env) (v3 v4 : String) (scene : Int)
    (wechat : WeChat) : Except String Bool :=
  match send_cmd env
      { func := .funcAcceptFriend,
        msg := some (.v { v3 := v3, v4 := v4, scene := scene }) } with
  | .error _ => .error "同意加好友请求失败"
  | .ok none => .ok false
  | .ok (some m) =>
      match m with
      | .status status => .ok (status == 1)
      | _ => .ok false

/-- `add_chatroom_members`: narrows to the status variant, `true` exactly
when the status is 1. -/
def add_chatroom_members (env : Env) (roomid wxids : String)
    (wechat : WeChat) : Except String Bool :=
  match send_cmd env
      { func := .funcAddRoomMembers,
        msg := some (.m { roomid := roomid, wxids := wxids }) } with
  | .error _ => .error "微信群加人失败"
  | .ok none => .ok false
  | .ok (some m) =>
      match m with
      | .status status => .ok (status == 1)
      | _ => .ok false

/-- `del_chatroom_members`: narrows to the status variant, `true` exactly
when the status is 1. -/
def del_chatroom_members (env : Env) (roomid wxids : String)
    (wechat : WeChat) : Except String Bool :=
  match send_cmd env
      { func := .funcDelRoomMembers,
        msg := some (.m { roomid := roomid, wxids := wxids }) } with
  | .error _ => .error "微信群踢人失败"
  | .ok none => .ok false
  | .ok (some m) =>
      match m with
      | .status status => .ok (status == 1)
      | _ => .ok false

/-- `decrypt_image`: narrows to the status variant, `true` exactly when the
status is 1. -/
def decrypt_image (env : Env) (src dst : String) (wechat : WeChat) :
    Except String Bool :=
  match send_cmd env
      { func := .funcDecryptImage,
        msg := some (.dec { src := src, dst := dst }) } with
  | .error _ => .error "图片解密失败"
  | .ok none => .ok false
  | .ok (some m) =>
      match m with
      | .status status => .ok (status == 1)
      | _ => .ok false

/-- `recv_transfer`: narrows to the status variant, `true` exactly when the
status is 1. -/
def recv_transfer (env : Env) (wxid transferid transcationid : String)
    (wechat : WeChat) : Except String Bool :=
  match send_cmd env
      { func := .funcRecvTransfer,
        msg := some (.tf { wxid := wxid, tfid := transferid,
                           taid := transcationid }) } with
  | .error _ => .error "接收转账失败"
  | .ok none => .ok false
  | .ok (some m) =>
      match m with
      | .status status => .ok (status == 1)
      | _ => .ok false

/-- `refresh_pyq`: narrows to the status variant, but — unlike the other
status operations — is `true` exactly when the status is not -1. -/
def refresh_pyq (env : Env) (id : Nat) (wechat : WeChat) :
    Except String Bool :=
  match send_cmd env
      { func := .funcRefreshPyq, msg := some (.ui64 id) } with
  | .error _ => .error "接收转账失败"
  | .ok none => .ok false
  | .ok (some m) =>
      match m with
      | .status status => .ok (status != -1)
      | _ => .ok false

/-- An environment whose round trip succeeds and delivers the single
response payload `v`. -/
def envWith (v : ResponseMsg) : Env :=
  { encodeOk := true, sendOk := true, recvResult := .ok (some { msg := some v }) }

/-- A concrete non-listening session for witnesses. -/
def wDemo : WeChat :=
  { url := DEFAULT_URL, wcf_path := ["C:", "lib", "wcf.exe"], debug := false,
    socket := .mk, listening := false, enable_accept_firend := false }

/-- A concrete listening session for witnesses. -/
def wListenDemo : WeChat := { wDemo with listening := true }

/-- An environment whose send leg fails. -/
def envSendFail : Env :=
  { encodeOk := true, sendOk := false, recvResult := .err }

/-- An environment whose receive leg fails. -/
def envRecvFail : Env :=
  { encodeOk := true, sendOk := true, recvResult := .err }

/-- C4: on a session whose listening flag is set, `enable_listen` returns
the `AlreadySubscribed` error `消息接收服务已开启` at once, independently of
the round-trip and dial environments (hence with no remote call and no
dial), does not panic, and returns the session unchanged. -/
theorem enable_listen_already_listening (env : Env) (c : ConnEnv)
    (w : WeChat) (h : w.listening = true) :
    enable_listen env c w = .value (.error "消息接收服务已开启", w) := by
  simp [enable_listen, h]

/-- Witness for C4 at a concrete listening session. -/
theorem enable_listen_already_listening_wit :
    enable_listen (envWith (.status 1))
        { socketNewOk := true, recvTimeoutOk := true,
          sendTimeoutOk := true, dialOk := true } wListenDemo =
      .value (.error "消息接收服务已开启", wListenDemo) :=
  enable_listen_already_listening (envWith (.status 1))
    { socketNewOk := true, recvTimeoutOk := true,
      sendTimeoutOk := true, dialOk := true } wListenDemo rfl

/-- C5: on a session whose listening flag is clear, `disable_listen`
returns `Ok(true)` at once, independently of the round-trip environment
(hence with no remote call), and returns the session unchanged. -/
theorem disable_listen_not_listening_noop (env : Env) (w : WeChat)
    (h : w.listening = false) :
    disable_listen env w = (.ok true, w) := by
  simp [disable_listen, h]

/-- Witness for C5 at a concrete non-listening session. -/
theorem disable_listen_not_listening_noop_wit :
    disable_listen envSendFail wDemo = (.ok true, wDemo) :=
  disable_listen_not_listening_noop envSendFail wDemo rfl

/-- C2 counterexample: on a listening session whose round trip fails at the
send leg, `disable_listen` returns an error and leaves the listening flag
set — it does not transition to the unsubscribed state regardless of remote
failure, contrary to the claim. -/
theorem disable_listen_transport_failure_keeps_state :
    (disable_listen envSendFail wListenDemo).2.listening = true ∧
    (disable_listen envSendFail wListenDemo).1 =
      .error "消息接收服务停止失败" :=
  ⟨rfl, rfl⟩

/-- C2 amended: on a listening session, `disable_listen` clears the
listening flag and succeeds exactly when the round trip delivers a present
payload; a transport failure or an absent payload yields an error and
leaves the session (listening flag included) unchanged.  No endpoint is
closed: the secondary socket is not held by the session. -/
theorem disable_listen_transitions (env : Env) (w : WeChat)
    (h : w.listening = true) :
    (∀ m : ResponseMsg,
      send_cmd env { func := .funcDisableRecvTxt, msg := none } =
        .ok (some m) →
      disable_listen env w = (.ok true, { w with listening := false })) ∧
    (∀ e : String,
      send_cmd env { func := .funcDisableRecvTxt, msg := none } = .error e →
      disable_listen env w = (.error "消息接收服务停止失败", w)) ∧
    (send_cmd env { func := .funcDisableRecvTxt, msg := none } = .ok none →
      disable_listen env w = (.error "消息接收服务停止失败", w)) := by
  refine ⟨?_, ?_, ?_⟩
  · intro m hm
    simp [disable_listen, h, hm]
  · intro e he
    simp [disable_listen, h, he]
  · intro hn
    simp [disable_listen, h, hn]

/-- Witness for the amended C2: a successful stop round trip on a concrete
listening session clears the flag. -/
theorem disable_listen_transitions_wit :
    disable_listen (envWith (.status 0)) wListenDemo =
      (.ok true, { wListenDemo with listening := false }) :=
  (disable_listen_transitions (envWith (.status 0)) wListenDemo rfl).1
    (.status 0) rfl

/-- C6: `recv_msg` turns a receive failure into `Ok(None)`, turns bytes
that fail to decode into the hard error `微信消息接收失败`, surfaces a
decoded envelope exactly when its payload is the `Wxmsg` variant, and
discards every other decoded envelope as `Ok(None)`. -/
theorem recv_msg_spec :
    (recv_msg .err = .ok none) ∧
    (recv_msg (.ok none) = .error "微信消息接收失败") ∧
    (∀ m : WxMsg,
      recv_msg (.ok (some { msg := some (.wxmsg m) })) = .ok (some m)) ∧
    (∀ r : Response, (∀ m : WxMsg, r.msg ≠ some (.wxmsg m)) →
      recv_msg (.ok (some r)) = .ok none) := by
  refine ⟨rfl, rfl, fun m => rfl, ?_⟩
  intro r hr
  obtain ⟨o⟩ := r
  cases o with
  | none => rfl
  | some m => cases m <;> first | exact absurd rfl (hr _) | rfl

/-- Witness for C6: a decoded envelope carrying a status payload is
discarded as absent. -/
theorem recv_msg_spec_wit :
    recv_msg (.ok (some { msg := some (.status 3) })) = .ok none :=
  recv_msg_spec.2.2.2 { msg := some (.status 3) } (fun m hm => by simp at hm)

/-- C8: `is_login` returns `Ok(true)` exactly when the round trip delivers
the status variant carrying 1; an absent payload, a status other than 1, or
any other variant yields `Ok(false)`. -/
theorem is_login_spec (env : Env) (w : WeChat) :
    (is_login env w = .ok true ↔
      send_cmd env { func := .funcIsLogin, msg := none } =
        .ok (some (.status 1))) ∧
    (send_cmd env { func := .funcIsLogin, msg := none } = .ok none →
      is_login env w = .ok false) ∧
    (∀ s : Int, s ≠ 1 →
      send_cmd env { func := .funcIsLogin, msg := none } =
        .ok (some (.status s)) →
      is_login env w = .ok false) ∧
    (∀ v : ResponseMsg, (∀ s : Int, v ≠ .status s) →
      send_cmd env { func := .funcIsLogin, msg := none } = .ok (some v) →
      is_login env w = .ok false) := by
  cases henv : send_cmd env { func := .funcIsLogin, msg := none } with
  | error e =>
      refine ⟨?_, ?_, ?_, ?_⟩
      · simp [is_login, henv]
      · intro hn; cases hn
      · intro s hs hc; cases hc
      · intro v hv hc; cases hc
  | ok o =>
      cases o with
      | none =>
          refine ⟨?_, ?_, ?_, ?_⟩
          · simp [is_login, henv]
          · intro hn; simp [is_login, henv]
          · intro s hs hc; cases hc
          · intro v hv hc; cases hc
      | some m =>
          refine ⟨?_, ?_, ?_, ?_⟩
          · cases m <;> simp [is_login, henv] <;> omega
          · intro hn; cases hn
          · intro s hs hc
            injection hc with hc
            injection hc with hc
            subst hc
            simp [is_login, henv]
            omega
          · intro v hv hc
            injection hc with hc
            injection hc with hc
            subst hc
            cases m <;> first
              | exact absurd rfl (hv _)
              | simp [is_login, henv]

/-- Witness for C8: a concrete peer answering status 1 makes `is_login`
return true. -/
theorem is_login_spec_wit :
    is_login (envWith (.status 1)) wDemo = .ok true :=
  (is_login_spec (envWith (.status 1)) wDemo).1.mpr rfl

/-- C3 counterexample: at concrete environments, a send-leg failure and a
receive-leg failure of `send_cmd` return the very same error value
`通信失败` — the caller cannot tell which leg broke. -/
theorem send_recv_leg_errors_equal :
    send_cmd envSendFail { func := .funcIsLogin, msg := none } =
      .error "通信失败" ∧
    send_cmd envRecvFail { func := .funcIsLogin, msg := none } =
      .error "通信失败" ∧
    send_cmd envSendFail { func := .funcIsLogin, msg := none } =
      send_cmd envRecvFail { func := .funcIsLogin, msg := none } :=
  ⟨rfl, rfl, rfl⟩

/-- C3 amended: a send-leg failure and a receive-leg failure both surface
to the caller as the one error `通信失败`, equal as values; the two legs
are distinguished only in the logged causes. -/
theorem send_cmd_leg_errors_coarse (env env2 : Env) (req req2 : Request)
    (h1 : env.encodeOk = true) (h2 : env.sendOk = false)
    (h3 : env2.encodeOk = true) (h4 : env2.sendOk = true)
    (h5 : env2.recvResult = .err) :
    send_cmd env req = .error "通信失败" ∧
    send_cmd env2 req2 = .error "通信失败" ∧
    send_cmd env req = send_cmd env2 req2 ∧
    send_cmdLogs env req = [.sendFail] ∧
    send_cmdLogs env2 req2 = [.recvFail] := by
  refine ⟨?_, ?_, ?_, ?_, ?_⟩ <;>
    simp [send_cmd, send_cmdLogs, send_cmdWithLog, h1, h2, h3, h4, h5]

/-- Witness for the amended C3 at concrete environments. -/
theorem send_cmd_leg_errors_coarse_wit :
    send_cmd envSendFail { func := .funcIsLogin, msg := none } =
      .error "通信失败" ∧
    send_cmd envRecvFail { func := .funcIsLogin, msg := none } =
      .error "通信失败" ∧
    send_cmd envSendFail { func := .funcIsLogin, msg := none } =
      send_cmd envRecvFail { func := .funcIsLogin, msg := none } ∧
    send_cmdLogs envSendFail { func := .funcIsLogin, msg := none } =
      [.sendFail] ∧
    send_cmdLogs envRecvFail { func := .funcIsLogin, msg := none } =
      [.recvFail] :=
  send_cmd_leg_errors_coarse envSendFail envRecvFail
    { func := .funcIsLogin, msg := none }
    { func := .funcIsLogin, msg := none } rfl rfl rfl rfl rfl

/-- C7: each of the four `send_cmd` failure modes — encoding failure, send
failure, receive failure, reply decoding failure — returns the one coarse
error `通信失败` while logging its distinct cause, and a success result can
only arise from a round trip in which every step succeeded and the decoded
envelope supplied the returned payload (failures are never swallowed into
success). -/
theorem send_cmd_failures_surfaced (env : Env) (req : Request) :
    (env.encodeOk = false →
      send_cmd env req = .error "通信失败" ∧
      send_cmdLogs env req = [.serializeFail]) ∧
    (env.encodeOk = true → env.sendOk = false →
      send_cmd env req = .error "通信失败" ∧
      send_cmdLogs env req = [.sendFail]) ∧
    (env.encodeOk = true → env.sendOk = true → env.recvResult = .err →
      send_cmd env req = .error "通信失败" ∧
      send_cmdLogs env req = [.recvFail]) ∧
    (env.encodeOk = true → env.sendOk = true → env.recvResult = .ok none →
      send_cmd env req = .error "通信失败" ∧
      send_cmdLogs env req = [.decodeFail]) ∧
    (∀ m : Option ResponseMsg, send_cmd env req = .ok m →
      env.encodeOk = true ∧ env.sendOk = true ∧
      ∃ r : Response, env.recvResult = .ok (some r) ∧ r.msg = m) := by
  obtain ⟨eOk, sOk, rr⟩ := env
  refine ⟨?_, ?_, ?_, ?_, ?_⟩
  · intro h1
    subst h1
    exact ⟨rfl, rfl⟩
  · intro h1 h2
    subst h1; subst h2
    exact ⟨rfl, rfl⟩
  · intro h1 h2 h3
    subst h1; subst h2; subst h3
    exact ⟨rfl, rfl⟩
  · intro h1 h2 h3
    subst h1; subst h2; subst h3
    exact ⟨rfl, rfl⟩
  · intro m hm
    cases eOk with
    | false => cases hm
    | true =>
        cases sOk with
        | false => cases hm
        | true =>
            cases rr with
            | err => cases hm
            | ok o =>
                cases o with
                | none => cases hm
                | some r =>
                    injection hm with hm
                    exact ⟨rfl, rfl, r, rfl, hm⟩

/-- Witness for C7: a concrete decoding failure surfaces as `通信失败`
with the decode cause logged. -/
theorem send_cmd_failures_surfaced_wit :
    send_cmd { encodeOk := true, sendOk := true, recvResult := .ok none }
        { func := .funcIsLogin, msg := none } = .error "通信失败" ∧
    send_cmdLogs { encodeOk := true, sendOk := true, recvResult := .ok none }
        { func := .funcIsLogin, msg := none } = [.decodeFail] :=
  (send_cmd_failures_surfaced
      { encodeOk := true, sendOk := true, recvResult := .ok none }
      { func := .funcIsLogin, msg := none }).2.2.2.1 rfl rfl rfl

/-- C9: when `connect` fails (for instance because the dial fails),
`WeChat::new` and — after a successful enable round trip on a non-listening
session — `enable_listen` end in a panic carrying the connect error, not in
an error value returned to the caller. -/
theorem dial_failure_panics (c : ConnEnv) (e : String)
    (h : connect c = .error e) :
    (∀ (currentDir : String) (debug : Bool),
      WeChat.new c currentDir debug = .panicked e) ∧
    (∀ (env : Env) (w : WeChat) (m : ResponseMsg), w.listening = false →
      send_cmd env { func := .funcEnableRecvTxt, msg := some (.flag true) } =
        .ok (some m) →
      enable_listen env c w = .panicked e) := by
  constructor
  · intro currentDir debug
    simp [WeChat.new, h]
  · intro env w m hw hm
    simp [enable_listen, hw, hm, h]

/-- Witness for C9: a concrete failing dial makes both constructions
panic with `连接服务失败`. -/
theorem dial_failure_panics_wit :
    WeChat.new
        { socketNewOk := true, recvTimeoutOk := true,
          sendTimeoutOk := true, dialOk := false } "C:" false =
      .panicked "连接服务失败" ∧
    enable_listen (envWith (.status 1))
        { socketNewOk := true, recvTimeoutOk := true,
          sendTimeoutOk := true, dialOk := false } wDemo =
      .panicked "连接服务失败" := by
  have h := dial_failure_panics
    { socketNewOk := true, recvTimeoutOk := true,
      sendTimeoutOk := true, dialOk := false } "连接服务失败" rfl
  exact ⟨h.1 "C:" false, h.2 (envWith (.status 1)) wDemo (.status 1) rfl rfl⟩

/-- C10: on a round trip delivering the status variant with value `s`,
`refresh_pyq` returns `Ok(true)` exactly when `s` is not -1 (so also at
`s = 0`), while each of the other status-based operations returns
`Ok(true)` exactly when `s` equals 1. -/
theorem refresh_pyq_lenient_status (s : Int) (w : WeChat)
    (path receiver xml v3 v4 roomid wxids src dst wxid tfid taid : String)
    (scene xml_type : Int) (id : Nat) :
    (refresh_pyq (envWith (.status s)) id w = .ok true ↔ s ≠ -1) ∧
    (send_file (envWith (.status s)) w path receiver = .ok true ↔ s = 1) ∧
    (send_xml (envWith (.status s)) w xml path receiver xml_type = .ok true ↔
      s = 1) ∧
    (accept_new_friend (envWith (.status s)) v3 v4 scene w = .ok true ↔
      s = 1) ∧
    (add_chatroom_members (envWith (.status s)) roomid wxids w = .ok true ↔
      s = 1) ∧
    (del_chatroom_members (envWith (.status s)) roomid wxids w = .ok true ↔
      s = 1) ∧
    (decrypt_image (envWith (.status s)) src dst w = .ok true ↔ s = 1) ∧
    (recv_transfer (envWith (.status s)) wxid tfid taid w = .ok true ↔
      s = 1) ∧
    refresh_pyq (envWith (.status 0)) id w = .ok true := by
  have h1 : refresh_pyq (envWith (.status s)) id w = .ok (s != -1) := rfl
  have h2 : send_file (envWith (.status s)) w path receiver =
      .ok (1 == s) := rfl
  have h3 : send_xml (envWith (.status s)) w xml path receiver xml_type =
      .ok (1 == s) := rfl
  have h4 : accept_new_friend (envWith (.status s)) v3 v4 scene w =
      .ok (s == 1) := rfl
  have h5 : add_chatroom_members (envWith (.status s)) roomid wxids w =
      .ok (s == 1) := rfl
  have h6 : del_chatroom_members (envWith (.status s)) roomid wxids w =
      .ok (s == 1) := rfl
  have h7 : decrypt_image (envWith (.status s)) src dst w =
      .ok (s == 1) := rfl
  have h8 : recv_transfer (envWith (.status s)) wxid tfid taid w =
      .ok (s == 1) := rfl
  refine ⟨?_, ?_, ?_, ?_, ?_, ?_, ?_, ?_, rfl⟩
  · rw [h1]; simp only [Except.ok.injEq, bne_iff_ne, beq_iff_eq]; try omega
  · rw [h2]; simp only [Except.ok.injEq, bne_iff_ne, beq_iff_eq]; try omega
  · rw [h3]; simp only [Except.ok.injEq, bne_iff_ne, beq_iff_eq]; try omega
  · rw [h4]; simp only [Except.ok.injEq, bne_iff_ne, beq_iff_eq]; try omega
  · rw [h5]; simp only [Except.ok.injEq, bne_iff_ne, beq_iff_eq]; try omega
  · rw [h6]; simp only [Except.ok.injEq, bne_iff_ne, beq_iff_eq]; try omega
  · rw [h7]; simp only [Except.ok.injEq, bne_iff_ne, beq_iff_eq]; try omega
  · rw [h8]; simp only [Except.ok.injEq, bne_iff_ne, beq_iff_eq]; try omega

/-- C1 counterexample: on a round trip delivering the string variant — not
the status variant `send_text` would narrow to — `send_text` returns
`Ok(true)`, not the documented boolean default `Ok(false)`. -/
theorem send_text_mismatch_returns_true :
    send_text (envWith (.str "unexpected")) wDemo "hello" "filehelper" "" =
      .ok true ∧
    (Except.ok true : Except String Bool) ≠ .ok false := by
  refine ⟨rfl, ?_⟩
  intro h
  cases h

/-- C1 amended: when a round trip succeeds and delivers a payload variant
other than the one an operation narrows to, every narrowing operation
returns `Ok` of its documented default (`false`, the empty collection, or
`None`) and never an error — except `send_text` and `send_image`, whose
status narrowing is commented out in the source and which return
`Ok(true)` for any present payload variant whatsoever. -/
theorem variant_mismatch_narrowing (env : Env) (v : ResponseMsg)
    (w : WeChat)
    (msg receiver aters path xml db sql v3 v4 roomid wxids src dst wxid
      tfid taid : String)
    (scene xml_type : Int) (id : Nat)
    (h : ∀ req : Request, send_cmd env req = .ok (some v)) :
    ((∀ s, v ≠ .status s) → is_login env w = .ok false) ∧
    ((∀ s, v ≠ .str s) → get_self_wx_id env w = .ok none) ∧
    ((∀ u, v ≠ .ui u) → get_user_info env w = .ok none) ∧
    ((∀ c, v ≠ .contacts c) → get_contacts env w = .ok none) ∧
    ((∀ d, v ≠ .dbs d) → get_db_names env w = .ok []) ∧
    ((∀ t, v ≠ .tables t) → get_db_tables env w db = .ok []) ∧
    ((∀ r, v ≠ .rows r) → exec_db_query env w db sql = .ok []) ∧
    ((∀ t, v ≠ .types t) → get_msg_types env w = .ok []) ∧
    ((∀ s, v ≠ .status s) → send_file env w path receiver = .ok false) ∧
    ((∀ s, v ≠ .status s) →
      send_xml env w xml path receiver xml_type = .ok false) ∧
    ((∀ s, v ≠ .status s) → send_emotion env w path receiver = .ok false) ∧
    ((∀ s, v ≠ .status s) →
      accept_new_friend env v3 v4 scene w = .ok false) ∧
    ((∀ s, v ≠ .status s) →
      add_chatroom_members env roomid wxids w = .ok false) ∧
    ((∀ s, v ≠ .status s) →
      del_chatroom_members env roomid wxids w = .ok false) ∧
    ((∀ s, v ≠ .status s) → decrypt_image env src dst w = .ok false) ∧
    ((∀ s, v ≠ .status s) →
      recv_transfer env wxid tfid taid w = .ok false) ∧
    ((∀ s, v ≠ .status s) → refresh_pyq env id w = .ok false) ∧
    send_text env w msg receiver aters = .ok true ∧
    send_image env w path receiver = .ok true := by
  refine ⟨?_, ?_, ?_, ?_, ?_, ?_, ?_, ?_, ?_, ?_, ?_, ?_, ?_, ?_, ?_, ?_,
          ?_, ?_, ?_⟩
  · intro hv
    cases v <;> first | exact absurd rfl (hv _) | simp [is_login, h]
  · intro hv
    cases v <;> first | exact absurd rfl (hv _) | simp [get_self_wx_id, h]
  · intro hv
    cases v <;> first | exact absurd rfl (hv _) | simp [get_user_info, h]
  · intro hv
    cases v <;> first | exact absurd rfl (hv _) | simp [get_contacts, h]
  · intro hv
    cases v <;> first | exact absurd rfl (hv _) | simp [get_db_names, h]
  · intro hv
    cases v <;> first | exact absurd rfl (hv _) | simp [get_db_tables, h]
  · intro hv
    cases v <;> first | exact absurd rfl (hv _) | simp [exec_db_query, h]
  · intro hv
    cases v <;> first | exact absurd rfl (hv _) | simp [get_msg_types, h]
  · intro hv
    cases v <;> first | exact absurd rfl (hv _) | simp [send_file, h]
  · intro hv
    cases v <;> first | exact absurd rfl (hv _) | simp [send_xml, h]
  · intro hv
    cases v <;> first | exact absurd rfl (hv _) | simp [send_emotion, h]
  · intro hv
    cases v <;> first
      | exact absurd rfl (hv _)
      | simp [accept_new_friend, h]
  · intro hv
    cases v <;> first
      | exact absurd rfl (hv _)
      | simp [add_chatroom_members, h]
  · intro hv
    cases v <;> first
      | exact absurd rfl (hv _)
      | simp [del_chatroom_members, h]
  · intro hv
    cases v <;> first | exact absurd rfl (hv _) | simp [decrypt_image, h]
  · intro hv
    cases v <;> first | exact absurd rfl (hv _) | simp [recv_transfer, h]
  · intro hv
    cases v <;> first | exact absurd rfl (hv _) | simp [refresh_pyq, h]
  · simp [send_text, h]
  · simp [send_image, h]

/-- Witness for the amended C1: a pushed-message payload, which no
narrowing operation expects, yields the default for `is_login` and
`get_db_names` and `Ok(true)` for `send_text`. -/
theorem variant_mismatch_narrowing_wit :
    is_login (envWith (.wxmsg { id := 0, content := "" })) wDemo =
      .ok false ∧
    get_db_names (envWith (.wxmsg { id := 0, content := "" })) wDemo =
      .ok [] ∧
    send_text (envWith (.wxmsg { id := 0, content := "" })) wDemo
      "hello" "filehelper" "" = .ok true := by
  have h := variant_mismatch_narrowing
    (envWith (.wxmsg { id := 0, content := "" }))
    (.wxmsg { id := 0, content := "" }) wDemo
    "hello" "filehelper" "" "p" "x" "db" "sql" "v3" "v4" "room" "wx"
    "s" "d" "w" "t" "ta" 17 1 0 (fun req => rfl)
  refine ⟨h.1 ?_, h.2.2.2.2.1 ?_, ?_⟩
  · intro s hs
    cases hs
  · intro d hd
    cases hd
  · exact h.2.2.2.2.2.2.2.2.2.2.2.2.2.2.2.2.2.1

end Wcferry
